import Mathlib

/-!
Verification development for the DiskImage repository.

The Python modules under `src/` are shallowly embedded as Lean functions.
External effects (filesystem contents, subprocess exit codes, archive
extraction results, raised OS errors) are passed in explicitly as values or
oracles, and Python exceptions are modelled with `Except`.  Each embedded
definition mirrors one function of the source; the theorems at the end of the
file settle the specification claims against these embeddings.
-/

/-- Python exception model for the `backend.exceptions` hierarchy: every class
derives from `Exception`; `ValidationError` and the other `DiskImageError`
subclasses are told apart by the `except` chain in `imaging.py`. -/
inductive PyExc where
  | validationError (msg : String)
  | diskImageError (msg : String)
  | otherError (msg : String)
deriving Repr, DecidableEq

/-- Python `str(e)`: the message carried by the exception. -/
def PyExc.str : PyExc → String
  | .validationError m => m
  | .diskImageError m => m
  | .otherError m => m

/-- Model of `WINDOWS_DLL_NOT_FOUND` from `backend/constants.py`. -/
def WINDOWS_DLL_NOT_FOUND : Int := 3221225781

/-- Model of `SPARSE_FORMATS` from `backend/constants.py`. -/
def SPARSE_FORMATS : List String := ["qcow2", "vhd", "vmdk"]

/-! ## Direct block copy (`backend/disk_ops.py::create_disk_image`, non-Windows path)

The destination file is modelled with POSIX semantics: a current position, a
size (high-water mark of written bytes), and byte contents where unwritten
holes read back as zero.  Bytes are `Nat`s. -/

/-- A destination file opened with `open(raw_path, 'wb')`. -/
structure DestFile where
  pos : Nat
  size : Nat
  data : Nat → Nat

/-- Freshly opened output file: empty, position 0, holes read as 0. -/
def empty_dest : DestFile := ⟨0, 0, fun _ => 0⟩

/-- Model of `image_file.write(chunk)`: writes at the current position, advancing it and
extending the file size to the end of the write if needed. -/
def write_chunk (f : DestFile) (chunk : List Nat) : DestFile :=
  { pos := f.pos + chunk.length
    size := max f.size (f.pos + chunk.length)
    data := fun i =>
      if f.pos ≤ i ∧ i < f.pos + chunk.length then chunk.getD (i - f.pos) 0 else f.data i }

/-- Model of `image_file.seek(len(chunk), 1)`: moves the position forward without
writing; the file size is unchanged (a trailing hole does not extend it). -/
def seek_forward (f : DestFile) (n : Nat) : DestFile :=
  { pos := f.pos + n, size := f.size, data := f.data }

/-- Model of `chunk.count(0) == len(chunk)`: the all-zero-chunk test of `disk_ops.py`. -/
def chunk_is_zero (chunk : List Nat) : Bool := chunk.count 0 == chunk.length

/-- The copy loop body of `create_disk_image`: zero chunks are seeked over,
other chunks are written. -/
def copy_chunks : DestFile → List (List Nat) → DestFile
  | f, [] => f
  | f, c :: cs => copy_chunks (if chunk_is_zero c then seek_forward f c.length else write_chunk f c) cs

/-- The sequence of chunks produced by `disk_file.read(bs)` until an empty read
(`read(0)` returns an empty chunk immediately, so `bs = 0` yields no chunks). -/
def read_chunks (bs : Nat) (src : List Nat) : List (List Nat) :=
  if h : bs = 0 ∨ src = [] then [] else src.take bs :: read_chunks bs (src.drop bs)
termination_by src.length
decreasing_by
  have h1 : bs ≠ 0 := fun hc => h (Or.inl hc)
  have h2 : src ≠ [] := fun hc => h (Or.inr hc)
  have h3 : 0 < src.length := List.length_pos.mpr h2
  simp only [List.length_drop]
  omega

/-- The raw copy phase of `disk_ops.py::create_disk_image` for the direct
(non-tool) path: read chunks of `bs` bytes and run the sparse-aware loop. -/
def create_disk_image_raw_copy (bs : Nat) (src : List Nat) : DestFile :=
  copy_chunks empty_dest (read_chunks bs src)

/-- Sequentially reading the destination back: its first `size` bytes, holes
included (they read as zero). -/
def dest_contents (f : DestFile) : List Nat := (List.range f.size).map f.data

/-! ## Progress monitor (`backend/qemu.py::QemuManager._run_command_with_progress`)

Each poll tick observes `output_path.stat().st_size` (or `none` when the file
does not exist yet / stat fails); the thread emits only on growth over the last
observed value.  On `returncode == 0` one final emission re-stats the file. -/

/-- The `monitor_progress` polling loop: starting from `last_size`, emit the
observed size whenever it exceeds the last emitted one. -/
def monitor_progress : Nat → List (Option Nat) → List Nat
  | _, [] => []
  | last, t :: ts =>
    match t with
    | none => monitor_progress last ts
    | some s => if last < s then s :: monitor_progress s ts else monitor_progress last ts

/-- The full sequence of byte counts passed to `progress_callback` during one
job: the monitor-thread emissions (from `last_size = 0`), then — only when the
process exited 0 and the output file exists — one final emission of the freshly
stat'ed size. -/
def progress_trace (ticks : List (Option Nat)) (returncode : Int) (final_stat : Option Nat) :
    List Nat :=
  let emits := monitor_progress 0 ticks
  if returncode = 0 then
    match final_stat with
    | some f => emits ++ [f]
    | none => emits
  else emits

/-! ## Path sanitization and image creation (`backend/validation.py`, `backend/qemu.py`)

Subprocess invocations are modelled by an oracle `proc : Nat -> Int` giving the
exit code of the n-th spawn; the functions below additionally return how many
spawns occurred. -/

/-- The `dangerous_chars` list of `validation.py::sanitize_path_for_subprocess`:
ampersand, pipe, semicolon, dollar, backquote, parentheses, braces. -/
def dangerous_chars : List Char :=
  [Char.ofNat 38, Char.ofNat 124, Char.ofNat 59, Char.ofNat 36, Char.ofNat 96,
   Char.ofNat 40, Char.ofNat 41, Char.ofNat 123, Char.ofNat 125]

/-- Model of `validation.py::sanitize_path_for_subprocess`: raise `ValidationError` on the
first dangerous character contained in the path, otherwise return it. -/
def sanitize_path_for_subprocess (path : String) : Except PyExc String :=
  match dangerous_chars.find? (fun c => path.toList.contains c) with
  | some c =>
      .error (.validationError ("Path contains potentially dangerous character: " ++ String.mk [c]))
  | none => .ok path

/-- Model of `qemu.py::QemuManager.run_command`: one `subprocess.run`; on the Windows
missing-DLL exit code, run `_handle_dll_error` (the `recover` oracle — an
`.error` models the re-extraction raising, which `run_command` propagates as a
`QemuError`) and rerun the identical invocation once.  Returns the final exit
code together with the number of spawns. -/
def run_command (proc : Nat → Int) (is_windows : Bool) (recover : Except String Unit) :
    Except String Int × Nat :=
  let r0 := proc 0
  if r0 = WINDOWS_DLL_NOT_FOUND ∧ is_windows = true then
    match recover with
    | .error e => (.error ("QEMU failed with DLL error and recovery failed: " ++ e), 1)
    | .ok _ => (.ok (proc 1), 2)
  else (.ok r0, 1)

/-- Command construction of `qemu.py::QemuManager.create_image`. -/
def build_convert_command (is_windows sparse compress : Bool) (image_format src out : String) :
    List String :=
  let c := ["convert", "-p", "-m", "16", "-W"]
  let c := if is_windows then c ++ ["-T", "none", "-f", "raw"] else c
  let c := if sparse then c ++ ["-S", "4096"] else c
  let c := c ++ ["-O", image_format]
  let c := if image_format = "raw" then c ++ ["-t", "none"] else c ++ ["-t", "writeback"]
  let c := if compress ∧ (image_format = "qcow2" ∨ image_format = "vmdk") then c ++ ["-c"] else c
  c ++ [src, out]

/-- Model of `qemu.py::QemuManager.create_image`: validate the output path (oracle),
sanitize the source path, build the convert command, then either run with
progress monitoring (one `Popen`) or through `run_command`; every exception is
caught and returned as `(False, str(e))`.  The second component counts
subprocess spawns. -/
def create_image (validate_output : Except PyExc String) (proc : Nat → Int)
    (recover : Except String Unit) (is_windows : Bool)
    (source_path _output_path image_format : String) (compress sparse has_progress : Bool) :
    (Bool × Option String) × Nat :=
  match validate_output with
  | .error e => ((false, some (PyExc.str e)), 0)
  | .ok vout =>
    match sanitize_path_for_subprocess source_path with
    | .error e => ((false, some (PyExc.str e)), 0)
    | .ok ssrc =>
      let _cmd := build_convert_command is_windows sparse compress image_format ssrc vout
      if has_progress then
        let rc := proc 0
        (if rc = 0 then (true, none) else (false, some "qemu-img failed"), 1)
      else
        match run_command proc is_windows recover with
        | (.error e, n) => ((false, some e), n)
        | (.ok rc, n) => (if rc = 0 then (true, none) else (false, some "qemu-img failed"), n)

/-! ## Windows imaging runner with DLL recovery (`backend/qemu_utils.py::run_qemu_win`) -/

/-- Command construction shared by `run_qemu_win`: map `img`/`iso` to `raw`,
add `-c` only for qcow2/vmdk with compression. -/
def run_qemu_win_cmd (device_path output_path image_format : String) (compress : Bool) :
    List String :=
  let out_fmt := if image_format = "img" ∨ image_format = "iso" then "raw" else image_format
  let cmd := ["qemu-img.exe", "convert", "-p", "-O", out_fmt, "-S", "4096"]
  let cmd := if compress ∧ (out_fmt = "qcow2" ∨ out_fmt = "vmdk") then cmd ++ ["-c"] else cmd
  cmd ++ [device_path, output_path]

/-- Model of `qemu_utils.py::run_qemu_win`.  `init1` is the initial `init_qemu()` call
(uncaught, so its exception propagates); `init2` is the re-extraction attempt
inside the recovery branch (caught, turned into a failure return).  The result
carries the `(success, error)` pair and the number of `run_qemu_wincmd`
subprocess invocations. -/
def run_qemu_win (proc : Nat → Int) (init1 init2 : Except String Unit)
    (device_path output_path image_format : String) (compress : Bool) :
    Except String ((Bool × Option String) × Nat) :=
  match init1 with
  | .error e => .error e
  | .ok _ =>
    let _cmd := run_qemu_win_cmd device_path output_path image_format compress
    let r0 := proc 0
    if r0 = WINDOWS_DLL_NOT_FOUND then
      match init2 with
      | .error e =>
          .ok ((false, some ("QEMU re-extraction failed: " ++ e)), 1)
      | .ok _ =>
        let r1 := proc 1
        if r1 = WINDOWS_DLL_NOT_FOUND then
          .ok ((false, some "qemu-img.exe failed to start due to missing DLLs (error 3221225781)."), 2)
        else if r1 = 0 then .ok ((true, none), 2)
        else .ok ((false, some "qemu-img failed"), 2)
    else if r0 = 0 then .ok ((true, none), 1)
    else .ok ((false, some "qemu-img failed"), 1)

/-! ## Tool health checks and extraction (`backend/qemu.py`, `backend/qemu_utils.py`)

The install directory is modelled as the list of file names it contains, plus a
flag for whether the directory itself exists.  Extraction attempts are oracles
yielding the directory contents they leave behind (or an error). -/

/-- Model of `qemu.py::QemuManager.check_files_present`: a missing directory reports
not-present; otherwise every required file must exist. -/
def check_files_present (dir_exists : Bool) (fs required : List String) : Bool :=
  dir_exists && required.all (fun f => fs.contains f)

/-- Model of `qemu_utils.py::check_qemu_files`: all required files exist under the
install directory. -/
def check_qemu_files (fs required : List String) : Bool :=
  required.all (fun f => fs.contains f)

/-- Model of `qemu.py::QemuManager._extract_qemu`: fail when no archive was located or
its suffix is unsupported; otherwise run the extraction (oracle for both the
zip and the 7-Zip strategies), then re-verify the required files and fail with
the missing list if any remain.  Returns the install directory contents on
success (the directory exists — `mkdir` ran). -/
def qemu_manager_extract (archive_suffix : Option String)
    (extract_result : Except String (List String)) (required : List String) :
    Except String (List String) :=
  match archive_suffix with
  | none => .error "No QEMU archive found in tools directory."
  | some ext =>
    if ext = ".zip" ∨ ext = ".7z" ∨ ext = ".exe" then
      match extract_result with
      | .error e => .error e
      | .ok fs' =>
        if check_files_present true fs' required then .ok fs'
        else .error "Extraction incomplete, missing files"
    else .error ("Unsupported archive format: " ++ ext)

/-- Model of `qemu.py::QemuManager.initialize`: on Windows, extract when the health
check fails; on other systems, only probe the system qemu-img.  Returns the
resulting (directory-exists, contents) state of the install directory. -/
def qemu_manager_init (is_windows system_qemu_ok dir_exists : Bool)
    (fs required : List String) (archive_suffix : Option String)
    (extract_result : Except String (List String)) :
    Except String (Bool × List String) :=
  if is_windows then
    if check_files_present dir_exists fs required then .ok (dir_exists, fs)
    else
      match qemu_manager_extract archive_suffix extract_result required with
      | .error e => .error e
      | .ok fs' => .ok (true, fs')
  else
    if system_qemu_ok then .ok (dir_exists, fs)
    else .error "qemu-img not found in system PATH."

/-- Python `str.lower`, character-wise over the string's characters. -/
def str_lower (s : String) : String := String.mk (s.toList.map Char.toLower)

/-- Model of `qemu_utils.py::_cleanup_qemu_dir`: try to remove every file whose
lower-cased name is not among the lower-cased required names; removal failures
are swallowed, so a file also stays when `remove_ok` is false for it. -/
def cleanup_qemu_dir (remove_ok : String → Bool) (fs required : List String) : List String :=
  fs.filter (fun f => (required.map str_lower).contains (str_lower f) || !(remove_ok f))

/-- Model of `qemu_utils.py::_finalize_extraction`: the required files still missing. -/
def finalize_extraction_missing (fs required : List String) : List String :=
  required.filter (fun f => !(fs.contains f))

/-- Model of `qemu_utils.py::extract_with_7z_and_finalize`: run the 7-Zip extraction
(oracle giving the directory contents it produced), purge non-required files,
then verify nothing required is missing; raise otherwise.  Returns the final
install directory contents. -/
def extract_with_7z_and_finalize (extract_result : Except String (List String))
    (remove_ok : String → Bool) (required : List String) :
    Except String (List String) :=
  match extract_result with
  | .error e => .error ("QEMU extraction failed using 7-Zip: " ++ e)
  | .ok fs' =>
    let fs2 := cleanup_qemu_dir remove_ok fs' required
    if (finalize_extraction_missing fs2 required).isEmpty then .ok fs2
    else .error "QEMU extraction failed, missing files"

/-- Model of `qemu_utils.py::extract_qemu`: dispatch on the located archive's suffix;
the zip strategy (`extract_qemu_deps`) also ends with `_cleanup_qemu_dir` and a
missing-files verification. -/
def extract_qemu (archive_suffix : Option String)
    (zip_result sevenzip_result : Except String (List String))
    (remove_ok : String → Bool) (required : List String) :
    Except String (List String) :=
  match archive_suffix with
  | none => .error "Required QEMU files missing and no QEMU archive found in tools/."
  | some ext =>
    if ext = ".zip" then
      match zip_result with
      | .error e => .error e
      | .ok fs' =>
        let fs2 := cleanup_qemu_dir remove_ok fs' required
        if (finalize_extraction_missing fs2 required).isEmpty then .ok fs2
        else .error "QEMU extraction from zip failed"
    else if ext = ".7z" ∨ ext = ".exe" then
      extract_with_7z_and_finalize sevenzip_result remove_ok required
    else .error ("Unsupported QEMU archive type: " ++ ext)

/-- Model of `qemu_utils.py::init_qemu`: return immediately when the health check
passes, otherwise extract.  Returns the resulting install directory
contents. -/
def init_qemu (fs : List String) (archive_suffix : Option String)
    (zip_result sevenzip_result : Except String (List String))
    (remove_ok : String → Bool) (required : List String) :
    Except String (List String) :=
  if check_qemu_files fs required then .ok fs
  else extract_qemu archive_suffix zip_result sevenzip_result remove_ok required

/-! ## Imaging worker (`backend/imaging.py::ImagingWorker.run_imaging_job`)

The worker's collaborators are oracles.  The validators may raise; the imaging
and archiving steps are given as the behaviour of the respective `try` bodies
(`_run_qemu_imaging` and `ArchiveManager.create_archive` both wrap their bodies
in a catch-all of their own, mirrored by the two wrappers below). -/

/-- Collaborator behaviour for one `run_imaging_job` call. -/
structure JobEnv where
  validate_disk : Except PyExc (String × String)
  validate_output : Except PyExc String
  validate_format : Except PyExc String
  validate_archive : Except PyExc (Option String)
  validate_buffer : Except PyExc Nat
  imaging : Except PyExc (Bool × Option String)
  archiving : Except PyExc (Bool × String)

/-- Python `str` of an optional error as interpolated by
`f"Imaging failed: {error}"` (`None` prints as `"None"`). -/
def opt_str : Option String → String
  | some s => s
  | none => "None"

/-- Model of `imaging.py::ImagingWorker._run_qemu_imaging`: its body (initialize +
create_image) behind its own catch-all returning `(False, str(e))`. -/
def run_qemu_imaging (body : Except PyExc (Bool × Option String)) : Bool × Option String :=
  match body with
  | .ok r => r
  | .error e => (false, some (PyExc.str e))

/-- Model of `archive_manager.py::ArchiveManager.create_archive` as seen by the worker:
its body behind its own catch-all returning `(False, str(e))`. -/
def archive_step (body : Except PyExc (Bool × String)) : Bool × String :=
  match body with
  | .ok r => r
  | .error e => (false, PyExc.str e)

/-- The `try` body of `run_imaging_job`: validations (which may raise), the
branch between QEMU sparse imaging and "direct" imaging (which delegates to the
same `_run_qemu_imaging`), then optional archiving. -/
def run_imaging_job_body (env : JobEnv) (use_sparse _use_compress archive_after : Bool) :
    Except PyExc (Bool × String × String) := do
  let _disk ← env.validate_disk
  let _out ← env.validate_output
  let fmt ← env.validate_format
  let arch ← if archive_after then env.validate_archive else pure none
  let _buf ← env.validate_buffer
  let imaging_result :=
    if use_sparse && SPARSE_FORMATS.contains fmt then run_qemu_imaging env.imaging
    else run_qemu_imaging env.imaging
  match imaging_result with
  | (false, err) =>
      pure (false, "Imaging failed: " ++ opt_str err, "log")
  | (true, _) =>
    match archive_after, arch with
    | true, some _ =>
      match archive_step env.archiving with
      | (true, res) => pure (true, "Imaging and archiving completed: " ++ res, "log")
      | (false, res) => pure (false, "Imaging completed, but archiving failed: " ++ res, "log")
    | _, _ => pure (true, "Imaging completed successfully", "log")

/-- Model of `imaging.py::ImagingWorker.run_imaging_job`: the body above guarded by the
`except ValidationError` / `except DiskImageError` / `except Exception` chain,
each handler returning a `(False, message, log)` triple. -/
def run_imaging_job (env : JobEnv) (use_sparse use_compress archive_after : Bool) :
    Except PyExc (Bool × String × String) :=
  match run_imaging_job_body env use_sparse use_compress archive_after with
  | .ok r => .ok r
  | .error (.validationError m) => .ok (false, "Invalid input: " ++ m, "log")
  | .error (.diskImageError m) => .ok (false, m, "log")
  | .error e => .ok (false, "Unexpected error: " ++ PyExc.str e, "log")

/-! ## Archive post-processing (`backend/archive_manager.py::ArchiveManager.create_archive`)

The archive-creation helpers and the filesystem are oracles: `create_ok` is the
boolean returned by `_create_zip_archive` / `_create_7z_archive`,
`archive_exists` and `archive_size` describe the archive file afterwards, and
`unlink_ok` tells whether removing the original succeeds.  The result is the
success flag paired with whether the original image file got deleted. -/

/-- Model of `ArchiveManager.create_archive` (messages elided; the second component
records whether `source.unlink()` deleted the original image). -/
def create_archive (source_exists : Bool) (archive_type : Option String)
    (create_ok archive_exists : Bool) (_archive_size : Nat)
    (cleanup_original unlink_ok : Bool) : Bool × Bool :=
  match archive_type with
  | none => (false, false)
  | some t =>
    if ¬(t = "zip" ∨ t = "7z") then (false, false)
    else if ¬(source_exists = true) then (false, false)
    else if ¬(create_ok = true) then (false, false)
    else if ¬(archive_exists = true) then (false, false)
    else (true, cleanup_original && unlink_ok)

/-! ## Direct-imaging error translation (`backend/disk_ops.py::create_disk_image`) -/

/-- OS-level exceptions that the direct-imaging `try` block can catch. -/
inductive OsExc where
  | file_not_found (msg : String)
  | permission_denied (msg : String)
  | os_other (msg : String)
deriving Repr, DecidableEq

/-- Python `str(e)` for an OS error. -/
def OsExc.str : OsExc → String
  | .file_not_found m => m
  | .permission_denied m => m
  | .os_other m => m

/-- Model of `isinstance(e, FileNotFoundError)`. -/
def OsExc.is_file_not_found : OsExc → Bool
  | .file_not_found _ => true
  | _ => false

/-- The friendly message built at `disk_ops.py` lines 137-138. -/
def device_access_hint (device_path : String) : String :=
  "Could not open " ++ device_path ++
    ". The device may not exist, is in use, or requires administrator privileges. " ++
    "Check that the disk is present and not locked by another process."

/-- The `except Exception` handler of `disk_ops.py::create_disk_image`: only a
`FileNotFoundError` outside the Windows-physical-drive case gets the friendly
hint; every other error is returned as `(False, str(e))`. -/
def create_disk_image_exc_result (is_windows is_physical : Bool) (device_path : String)
    (e : OsExc) : Bool × String :=
  if OsExc.is_file_not_found e && (!is_windows || !is_physical) then
    (false, device_access_hint device_path)
  else (false, OsExc.str e)

/-! ## Format conversion after the raw copy (`backend/disk_ops.py`, `backend.py`) -/

/-- The temporary path chosen by `create_disk_image` when the requested format
is not raw/iso: `output_path + '.tmp.raw'`. -/
def raw_temp_path (output_path image_format : String) : String :=
  if image_format = "img" ∨ image_format = "iso" then output_path
  else output_path ++ ".tmp.raw"

/-- The qemu-img command built by `backend.py::create_disk_image_sparse`, the
conversion step `disk_ops.py::create_disk_image` invokes after the raw copy;
its source argument is `disk_info['device_id']`. -/
def create_disk_image_sparse_cmd (device_path output_path image_format : String)
    (compress : Bool) : List String :=
  let out_fmt := if image_format = "img" ∨ image_format = "iso" then "raw" else image_format
  let cmd := ["qemu-img", "convert", "-O", out_fmt, "-S", "4096"]
  let cmd := if compress ∧ (out_fmt = "qcow2" ∨ out_fmt = "vmdk") then cmd ++ ["-c"] else cmd
  cmd ++ [device_path, output_path]

/-! ## Helper lemmas -/

theorem mem_monitor_progress (ts : List (Option Nat)) :
    ∀ (last x : Nat), x ∈ monitor_progress last ts → some x ∈ ts := by
  induction ts with
  | nil => intro last x h; simp [monitor_progress] at h
  | cons t ts ih =>
    intro last x h
    cases t with
    | none =>
      simp only [monitor_progress] at h
      exact List.mem_cons_of_mem _ (ih _ _ h)
    | some s =>
      simp only [monitor_progress] at h
      by_cases hls : last < s
      · rw [if_pos hls] at h
        rcases List.mem_cons.mp h with h1 | h2
        · subst h1; exact List.mem_cons_self _ _
        · exact List.mem_cons_of_mem _ (ih _ _ h2)
      · rw [if_neg hls] at h
        exact List.mem_cons_of_mem _ (ih _ _ h)

theorem monitor_progress_gt (ts : List (Option Nat)) :
    ∀ (last x : Nat), x ∈ monitor_progress last ts → last < x := by
  induction ts with
  | nil => intro last x h; simp [monitor_progress] at h
  | cons t ts ih =>
    intro last x h
    cases t with
    | none => exact ih _ _ h
    | some s =>
      simp only [monitor_progress] at h
      by_cases hls : last < s
      · rw [if_pos hls] at h
        rcases List.mem_cons.mp h with h1 | h2
        · subst h1; exact hls
        · exact lt_trans hls (ih _ _ h2)
      · rw [if_neg hls] at h
        exact ih _ _ h

theorem monitor_progress_chain (ts : List (Option Nat)) :
    ∀ last : Nat, List.Chain' (fun a b => a ≤ b) (monitor_progress last ts) := by
  induction ts with
  | nil => intro last; simp [monitor_progress]
  | cons t ts ih =>
    intro last
    cases t with
    | none => exact ih last
    | some s =>
      simp only [monitor_progress]
      by_cases hls : last < s
      · rw [if_pos hls]
        rw [List.chain'_cons']
        refine ⟨?_, ih s⟩
        intro b hb
        exact le_of_lt (monitor_progress_gt ts s b (List.mem_of_mem_head? hb))
      · rw [if_neg hls]; exact ih last

theorem missing_empty_check (fs required : List String)
    (h : (finalize_extraction_missing fs required).isEmpty = true) :
    check_qemu_files fs required = true := by
  rw [List.isEmpty_iff] at h
  rw [finalize_extraction_missing, List.filter_eq_nil_iff] at h
  rw [check_qemu_files, List.all_eq_true]
  intro f hf
  have := h f hf
  simpa using this

theorem extract_7z_ok_inversion (res : Except String (List String))
    (remove_ok : String → Bool) (required fs2 : List String)
    (h : extract_with_7z_and_finalize res remove_ok required = .ok fs2) :
    (finalize_extraction_missing fs2 required).isEmpty = true ∧
      ∃ fs', res = .ok fs' ∧ fs2 = cleanup_qemu_dir remove_ok fs' required := by
  unfold extract_with_7z_and_finalize at h
  cases res with
  | error e => simp at h
  | ok fs' =>
    simp only at h
    by_cases hm : (finalize_extraction_missing (cleanup_qemu_dir remove_ok fs' required) required).isEmpty = true
    · rw [if_pos hm] at h
      cases h
      exact ⟨hm, fs', rfl, rfl⟩
    · rw [if_neg hm] at h
      simp at h

theorem read_chunks_nil (bs : Nat) : read_chunks bs [] = [] := by
  rw [read_chunks]; simp

theorem read_chunks_block {bs : Nat} (hbs : bs ≠ 0) (x : Nat) (rest : List Nat) :
    read_chunks bs (List.replicate bs x ++ rest) = List.replicate bs x :: read_chunks bs rest := by
  have hne : List.replicate bs x ++ rest ≠ [] := by
    simp [List.append_eq_nil, hbs]
  rw [read_chunks, dif_neg (by push_neg; exact ⟨hbs, hne⟩)]
  have hlen : (List.replicate bs x).length = bs := List.length_replicate bs x
  rw [List.take_left' hlen, List.drop_left' hlen]

theorem chunk_is_zero_replicate_zero (n : Nat) : chunk_is_zero (List.replicate n 0) = true := by
  simp [chunk_is_zero, List.count_replicate]

theorem chunk_is_zero_replicate_one {n : Nat} (hn : n ≠ 0) :
    chunk_is_zero (List.replicate n 1) = false := by
  simp [chunk_is_zero, List.count_replicate]
  omega

/-! ## Claim theorems -/

/-- C3 counterexample: the emission sequence is not always monotone.  With one
monitor observation of 5 bytes and a process that exits 0 while the output file
has shrunk to 3 bytes, the final emission — which re-stats the file instead of
reusing the last-known size — goes backward: the trace is `[5, 3]`. -/
theorem progress_trace_not_monotone :
    progress_trace [some 5] 0 (some 3) = [5, 3] ∧
      ¬ List.Chain' (fun a b => a ≤ b) [5, 3] := by
  constructor
  · rfl
  · intro hc
    have := (List.chain'_cons.mp hc).1
    omega

/-- C3 (amended): every monitor-thread emission is strictly larger than the
previous one, and the final emission issued on process completion re-reads the
file size, so the whole sequence passed to the progress callback is
monotonically non-decreasing provided the output file's size never decreases
(every polled observation is at most the final stat). -/
theorem progress_trace_monotone (ticks : List (Option Nat)) (returncode : Int)
    (final_stat : Option Nat)
    (h : ∀ f, final_stat = some f → ∀ v, some v ∈ ticks → v ≤ f) :
    List.Chain' (fun a b => a ≤ b) (progress_trace ticks returncode final_stat) := by
  unfold progress_trace
  by_cases hrc : returncode = 0
  · rw [if_pos hrc]
    cases final_stat with
    | none => exact monitor_progress_chain ticks 0
    | some f =>
      simp only
      rw [List.chain'_append]
      refine ⟨monitor_progress_chain ticks 0, List.chain'_singleton f, ?_⟩
      intro x hx y hy
      simp only [List.head?_cons, Option.mem_def, Option.some.injEq] at hy
      subst hy
      have hxmem : x ∈ monitor_progress 0 ticks := by
        rcases List.mem_getLast?_eq_getLast hx with ⟨hne, hx'⟩
        subst hx'
        exact List.getLast_mem hne
      exact h f rfl x (mem_monitor_progress ticks 0 x hxmem)
  · rw [if_neg hrc]
    exact monitor_progress_chain ticks 0

/-- C3 witness: the amended monotonicity theorem applied to a concrete job with
observations 2 then 5 and a final stat of 7. -/
theorem progress_trace_monotone_witness :
    List.Chain' (fun a b => a ≤ b) (progress_trace [some 2, none, some 5] 0 (some 7)) :=
  progress_trace_monotone [some 2, none, some 5] 0 (some 7) (by
    intro f hf v hv
    cases hf
    simp only [List.mem_cons, List.not_mem_nil, or_false] at hv
    rcases hv with h1 | h1 | h1
    · injection h1 with h2; omega
    · exact Option.noConfusion h1
    · injection h1 with h2; omega)

/-- C2: when every invocation of the imaging tool exits with the
missing-shared-dependency code 3221225781 and re-extraction succeeds,
`run_qemu_win` spawns the process exactly twice (initial attempt plus one
retry) and returns a terminal failure, and `QemuManager.run_command` likewise
spawns exactly twice and hands back the failing exit code; a third invocation
never occurs. -/
theorem run_qemu_win_retries_exactly_once (proc : Nat → Int)
    (h : ∀ n, proc n = WINDOWS_DLL_NOT_FOUND)
    (device_path output_path image_format : String) (compress : Bool) :
    (∃ m, run_qemu_win proc (.ok ()) (.ok ()) device_path output_path image_format compress =
        .ok ((false, some m), 2)) ∧
      run_command proc true (.ok ()) = (.ok WINDOWS_DLL_NOT_FOUND, 2) := by
  constructor
  · refine ⟨"qemu-img.exe failed to start due to missing DLLs (error 3221225781).", ?_⟩
    simp [run_qemu_win, h 0, h 1]
  · simp [run_command, h 0, h 1]

/-- C2 witness: the retry-exactly-once theorem applied to the constant stub
that always returns the missing-dependency exit code. -/
theorem run_qemu_win_retries_exactly_once_witness :
    (∃ m, run_qemu_win (fun _ => WINDOWS_DLL_NOT_FOUND) (.ok ()) (.ok ())
        "PhysicalDrive0" "out.qcow2" "qcow2" false = .ok ((false, some m), 2)) ∧
      run_command (fun _ => WINDOWS_DLL_NOT_FOUND) true (.ok ()) =
        (.ok WINDOWS_DLL_NOT_FOUND, 2) :=
  run_qemu_win_retries_exactly_once (fun _ => WINDOWS_DLL_NOT_FOUND) (fun _ => rfl)
    "PhysicalDrive0" "out.qcow2" "qcow2" false

/-- C10: whenever the source path contains one of the shell metacharacters
rejected by `sanitize_path_for_subprocess`, `QemuManager.create_image` returns
`(False, error_message)` with zero subprocess spawns, for every combination of
the other arguments: sanitization happens before any command is executed. -/
theorem create_image_rejects_dangerous_path (validate_output : Except PyExc String)
    (proc : Nat → Int) (recover : Except String Unit) (is_windows : Bool)
    (source_path output_path image_format : String) (compress sparse has_progress : Bool)
    (h : ∃ c ∈ dangerous_chars, source_path.toList.contains c = true) :
    (create_image validate_output proc recover is_windows source_path output_path image_format
          compress sparse has_progress).1.1 = false ∧
      (create_image validate_output proc recover is_windows source_path output_path image_format
          compress sparse has_progress).1.2 ≠ none ∧
      (create_image validate_output proc recover is_windows source_path output_path image_format
          compress sparse has_progress).2 = 0 := by
  have hfind : (dangerous_chars.find? (fun c => source_path.toList.contains c)).isSome := by
    rw [List.find?_isSome]
    obtain ⟨c, hc, hcc⟩ := h
    exact ⟨c, hc, hcc⟩
  obtain ⟨c, hceq⟩ := Option.isSome_iff_exists.mp hfind
  have hs : sanitize_path_for_subprocess source_path =
      .error (.validationError
        ("Path contains potentially dangerous character: " ++ String.mk [c])) := by
    unfold sanitize_path_for_subprocess
    rw [hceq]
  unfold create_image
  cases validate_output with
  | error e => exact ⟨rfl, by simp, rfl⟩
  | ok vout =>
    rw [hs]
    exact ⟨rfl, by simp, rfl⟩

/-- C10 witness: the rejection theorem applied to the source path `a&b`, which
contains the ampersand metacharacter. -/
theorem create_image_rejects_dangerous_path_witness :
    (create_image (.ok "out.img") (fun _ => 0) (.ok ()) false "a&b" "out.img" "raw"
          false true false).1.1 = false ∧
      (create_image (.ok "out.img") (fun _ => 0) (.ok ()) false "a&b" "out.img" "raw"
          false true false).1.2 ≠ none ∧
      (create_image (.ok "out.img") (fun _ => 0) (.ok ()) false "a&b" "out.img" "raw"
          false true false).2 = 0 :=
  create_image_rejects_dangerous_path (.ok "out.img") (fun _ => 0) (.ok ()) false
    "a&b" "out.img" "raw" false true false
    ⟨Char.ofNat 38, by decide, by decide⟩

theorem read_chunks_last_block {bs : Nat} (hbs : bs ≠ 0) (x : Nat) :
    read_chunks bs (List.replicate bs x) = [List.replicate bs x] := by
  conv_lhs => rw [← List.append_nil (List.replicate bs x)]
  rw [read_chunks_block hbs, read_chunks_nil]

theorem copy_chunks_zero_step (f : DestFile) (n : Nat) (cs : List (List Nat)) :
    copy_chunks f (List.replicate n 0 :: cs) = copy_chunks (seek_forward f n) cs := by
  simp only [copy_chunks, chunk_is_zero_replicate_zero, if_pos, List.length_replicate]

theorem copy_chunks_one_step (f : DestFile) {n : Nat} (hn : n ≠ 0) (cs : List (List Nat)) :
    copy_chunks f (List.replicate n 1 :: cs) =
      copy_chunks (write_chunk f (List.replicate n 1)) cs := by
  simp only [copy_chunks, chunk_is_zero_replicate_one hn, Bool.false_eq_true, if_false]

theorem copy_four_blocks_size {n : Nat} (hn : n ≠ 0) :
    (create_disk_image_raw_copy n
        (List.replicate n 1 ++ (List.replicate n 0 ++
          (List.replicate n 1 ++ List.replicate n 0)))).size = 3 * n := by
  have hchunks : read_chunks n
      (List.replicate n 1 ++ (List.replicate n 0 ++
        (List.replicate n 1 ++ List.replicate n 0))) =
      [List.replicate n 1, List.replicate n 0, List.replicate n 1, List.replicate n 0] := by
    rw [read_chunks_block hn, read_chunks_block hn, read_chunks_block hn,
      read_chunks_last_block hn]
  unfold create_disk_image_raw_copy
  rw [hchunks, copy_chunks_one_step _ hn, copy_chunks_zero_step,
    copy_chunks_one_step _ hn, copy_chunks_zero_step]
  show (copy_chunks _ []).size = 3 * n
  rw [copy_chunks]
  simp only [seek_forward, write_chunk, empty_dest, List.length_replicate]
  omega

/-- C4: evaluation of the direct copy at the failing input.  For a source of
alternating non-zero and all-zero 4MiB blocks copied with a 4MiB buffer, the
final all-zero chunk is only seeked over and the file is never extended, so the
destination's logical size is 3 blocks instead of 4 and its sequentially-read
content does not equal the source: the trailing 4MiB of zeros is lost. -/
theorem direct_copy_drops_trailing_zero_block :
    (create_disk_image_raw_copy 4194304
        (List.replicate 4194304 1 ++ (List.replicate 4194304 0 ++
          (List.replicate 4194304 1 ++ List.replicate 4194304 0)))).size = 3 * 4194304 ∧
      dest_contents (create_disk_image_raw_copy 4194304
        (List.replicate 4194304 1 ++ (List.replicate 4194304 0 ++
          (List.replicate 4194304 1 ++ List.replicate 4194304 0)))) ≠
        List.replicate 4194304 1 ++ (List.replicate 4194304 0 ++
          (List.replicate 4194304 1 ++ List.replicate 4194304 0)) := by
  have hn : (4194304 : Nat) ≠ 0 := by decide
  refine ⟨copy_four_blocks_size hn, ?_⟩
  intro heq
  have hlen := congrArg List.length heq
  rw [dest_contents, List.length_map, List.length_range, copy_four_blocks_size hn] at hlen
  simp only [List.length_append, List.length_replicate] at hlen
  omega

/-- C1: for every input combination and every behaviour of the collaborators
(validators raising any exception, imaging or archiving failing or raising),
`ImagingWorker.run_imaging_job` returns a `(success, message, log_output)`
triple and never propagates an exception: the trailing `except Exception`
handler catches everything, and whenever the body raised, the returned triple
reports `success = false` with the handler's message. -/
theorem run_imaging_job_never_raises (env : JobEnv) (use_sparse use_compress archive_after : Bool) :
    ∃ out, run_imaging_job env use_sparse use_compress archive_after = .ok out ∧
      (∀ e, run_imaging_job_body env use_sparse use_compress archive_after = .error e →
        out.1 = false) := by
  unfold run_imaging_job
  cases hbody : run_imaging_job_body env use_sparse use_compress archive_after with
  | ok r =>
    refine ⟨r, rfl, ?_⟩
    intro e he
    exact Except.noConfusion he
  | error e =>
    cases e with
    | validationError m => exact ⟨_, rfl, fun _ _ => rfl⟩
    | diskImageError m => exact ⟨_, rfl, fun _ _ => rfl⟩
    | otherError m => exact ⟨_, rfl, fun _ _ => rfl⟩

/-- C1 witness: the totality theorem applied to a concrete environment whose
validators succeed and whose imaging step succeeds. -/
theorem run_imaging_job_never_raises_witness :
    ∃ out, run_imaging_job
        ⟨.ok ("PhysicalDrive0", "disk0"), .ok "out.img", .ok "img", .ok none, .ok 1,
          .ok (true, none), .ok (true, "out.zip")⟩ true false false = .ok out ∧
      (∀ e, run_imaging_job_body
          ⟨.ok ("PhysicalDrive0", "disk0"), .ok "out.img", .ok "img", .ok none, .ok 1,
            .ok (true, none), .ok (true, "out.zip")⟩ true false false = .error e →
        out.1 = false) :=
  run_imaging_job_never_raises
    ⟨.ok ("PhysicalDrive0", "disk0"), .ok "out.img", .ok "img", .ok none, .ok 1,
      .ok (true, none), .ok (true, "out.zip")⟩ true false false

/-- C5 counterexample: on a non-Windows system, `QemuManager.initialize`
returns successfully as soon as a system qemu-img is available, without
touching the install directory; an immediately subsequent health check over
that (existing but empty) install directory and the manifest reports not-ready
with `qemu-img.exe` missing. -/
theorem init_success_without_ready :
    qemu_manager_init false true true [] ["qemu-img.exe"] none (.error "no archive") =
        .ok (true, []) ∧
      check_files_present true [] ["qemu-img.exe"] = false := by
  constructor
  · rfl
  · rfl

/-- C5 (amended): on the Windows path — the one that consults the manifest —
a successful `QemuManager.initialize` implies the health check over the
resulting install directory reports every required file present, because
readiness is re-verified after extraction; and a successful `init_qemu`
likewise implies `check_qemu_files` passes.  On non-Windows systems,
`initialize` succeeds via the system-tool probe without establishing this. -/
theorem windows_init_implies_ready (system_qemu_ok dir_exists : Bool)
    (fs required fs0 : List String) (archive_suffix suffix0 : Option String)
    (extract_result zip_result sevenzip_result : Except String (List String))
    (remove_ok : String → Bool) :
    (∀ p, qemu_manager_init true system_qemu_ok dir_exists fs required archive_suffix
        extract_result = .ok p → check_files_present p.1 p.2 required = true) ∧
      (∀ fs', init_qemu fs0 suffix0 zip_result sevenzip_result remove_ok required = .ok fs' →
        check_qemu_files fs' required = true) := by
  constructor
  · intro p hp
    unfold qemu_manager_init at hp
    rw [if_pos rfl] at hp
    by_cases hc : check_files_present dir_exists fs required = true
    · rw [if_pos hc] at hp
      cases hp
      exact hc
    · rw [if_neg hc] at hp
      unfold qemu_manager_extract at hp
      cases archive_suffix with
      | none => exact Except.noConfusion hp
      | some ext =>
        simp only at hp
        by_cases hext : ext = ".zip" ∨ ext = ".7z" ∨ ext = ".exe"
        · rw [if_pos hext] at hp
          cases extract_result with
          | error e => exact Except.noConfusion hp
          | ok fs' =>
            simp only at hp
            by_cases hchk : check_files_present true fs' required = true
            · rw [if_pos hchk] at hp
              cases hp
              exact hchk
            · rw [if_neg hchk] at hp
              exact Except.noConfusion hp
        · rw [if_neg hext] at hp
          exact Except.noConfusion hp
  · intro fs' hf
    unfold init_qemu at hf
    by_cases hc : check_qemu_files fs0 required = true
    · rw [if_pos hc] at hf
      cases hf
      exact hc
    · rw [if_neg hc] at hf
      unfold extract_qemu at hf
      cases suffix0 with
      | none => exact Except.noConfusion hf
      | some ext =>
        simp only at hf
        by_cases hzip : ext = ".zip"
        · rw [if_pos hzip] at hf
          cases zip_result with
          | error e => exact Except.noConfusion hf
          | ok fsz =>
            simp only at hf
            by_cases hm : (finalize_extraction_missing
                (cleanup_qemu_dir remove_ok fsz required) required).isEmpty = true
            · rw [if_pos hm] at hf
              cases hf
              exact missing_empty_check _ _ hm
            · rw [if_neg hm] at hf
              exact Except.noConfusion hf
        · rw [if_neg hzip] at hf
          by_cases h7 : ext = ".7z" ∨ ext = ".exe"
          · rw [if_pos h7] at hf
            obtain ⟨hm, _⟩ := extract_7z_ok_inversion _ _ _ _ hf
            exact missing_empty_check _ _ hm
          · rw [if_neg h7] at hf
            exact Except.noConfusion hf

/-- C5 witness: the amended theorem applied to an install directory that is
already complete, on both initialization entry points. -/
theorem windows_init_implies_ready_witness :
    check_files_present true ["qemu-img.exe"] ["qemu-img.exe"] = true ∧
      check_qemu_files ["qemu-img.exe"] ["qemu-img.exe"] = true := by
  have h := windows_init_implies_ready true true ["qemu-img.exe"] ["qemu-img.exe"]
    ["qemu-img.exe"] none none (.error "e") (.error "e") (.error "e") (fun _ => true)
  exact ⟨h.1 (true, ["qemu-img.exe"]) rfl, h.2 ["qemu-img.exe"] rfl⟩

/-- C6 counterexample: a successful non-zip extraction does not guarantee the
install directory holds exactly the manifest files.  `_cleanup_qemu_dir`
swallows removal failures, so when deleting `stray.txt` fails (e.g. the file is
locked), `extract_with_7z_and_finalize` still returns success while the stray
file — not named in the manifest — remains in the directory. -/
theorem purge_leaves_stray_on_failed_remove :
    extract_with_7z_and_finalize (Except.ok ["qemu-img.exe", "stray.txt"]) (fun _ => false)
        ["qemu-img.exe"] = Except.ok ["qemu-img.exe", "stray.txt"] ∧
      "stray.txt" ∉ ["qemu-img.exe"] := by
  constructor
  · rfl
  · decide

/-- C6 (amended): after a successful non-zip extraction, every manifest file is
present, and — provided every removal attempted by the purge succeeds — every
remaining file matches a manifest name case-insensitively; a file whose removal
fails is silently left behind. -/
theorem purge_exact_when_removals_succeed (extract_fs : List String)
    (remove_ok : String → Bool) (required fs2 : List String)
    (hall : ∀ f, remove_ok f = true)
    (hok : extract_with_7z_and_finalize (.ok extract_fs) remove_ok required = .ok fs2) :
    (∀ r ∈ required, r ∈ fs2) ∧
      ∀ f ∈ fs2, str_lower f ∈ required.map str_lower := by
  obtain ⟨hm, fs', hres, hcl⟩ := extract_7z_ok_inversion _ _ _ _ hok
  constructor
  · have hchk := missing_empty_check _ _ hm
    rw [check_qemu_files, List.all_eq_true] at hchk
    intro r hr
    exact List.elem_iff.mp (hchk r hr)
  · intro f hf
    rw [hcl] at hf
    rw [cleanup_qemu_dir] at hf
    have hp := List.of_mem_filter hf
    rw [hall f] at hp
    simp only [Bool.not_true, Bool.or_false] at hp
    exact List.elem_iff.mp hp

/-- C6 witness: the amended purge theorem applied to an extraction that left
one stray file, with all removals succeeding. -/
theorem purge_exact_when_removals_succeed_witness :
    (∀ r ∈ (["a.exe"] : List String), r ∈ (["a.exe"] : List String)) ∧
      ∀ f ∈ (["a.exe"] : List String),
        str_lower f ∈ (["a.exe"] : List String).map str_lower :=
  purge_exact_when_removals_succeed ["a.exe", "b.txt"] (fun _ => true) ["a.exe"] ["a.exe"]
    (fun _ => rfl) (by rfl)

/-- C7 counterexample: the claim that the original image is deleted only after
confirming the archive exists *and is non-empty* is false: with an archive
reported created and existing but of size 0, `ArchiveManager.create_archive`
still deletes the original — the size is never checked. -/
theorem original_deleted_despite_empty_archive :
    ¬ ∀ (se : Bool) (t : Option String) (co ae : Bool) (sz : Nat) (cl uo : Bool),
        (create_archive se t co ae sz cl uo).2 = true → 0 < sz := by
  intro h
  exact absurd (h true (some "zip") true true 0 true true rfl) (by omega)

/-- C7 (amended): the original image file is deleted only when archive creation
reported success, the archive file was confirmed to exist, cleanup was
requested, and the unlink itself succeeded — deletion never precedes creation
confirmation; the archive's non-emptiness, however, is never verified. -/
theorem delete_only_after_creation_confirmed (source_exists : Bool) (t : Option String)
    (create_ok archive_exists : Bool) (archive_size : Nat) (cleanup_original unlink_ok : Bool)
    (h : (create_archive source_exists t create_ok archive_exists archive_size
        cleanup_original unlink_ok).2 = true) :
    source_exists = true ∧ create_ok = true ∧ archive_exists = true ∧
      cleanup_original = true ∧ unlink_ok = true ∧
      (create_archive source_exists t create_ok archive_exists archive_size
        cleanup_original unlink_ok).1 = true := by
  unfold create_archive at *
  cases t with
  | none => exact absurd h (by simp)
  | some ty =>
    simp only at h ⊢
    by_cases h1 : ty = "zip" ∨ ty = "7z"
    all_goals by_cases h2 : source_exists = true
    all_goals by_cases h3 : create_ok = true
    all_goals by_cases h4 : archive_exists = true
    all_goals simp_all

/-- C7 witness: the deletion-ordering theorem applied to a successful zip
archiving run that deleted the original. -/
theorem delete_only_after_creation_confirmed_witness :
    true = true ∧ true = true ∧ true = true ∧ true = true ∧ true = true ∧
      (create_archive true (some "zip") true true 5 true true).1 = true :=
  delete_only_after_creation_confirmed true (some "zip") true true 5 true true rfl

/-- C8 counterexample: a permission-denied error during direct imaging is not
translated: `create_disk_image` returns the raw OS exception text, with no
offending-path/actionable-hint message (and the codebase defines no
`DeviceAccessError` at all).  Only `FileNotFoundError` receives the friendly
treatment. -/
theorem permission_error_not_translated :
    create_disk_image_exc_result false false "/dev/sdb"
        (OsExc.permission_denied "Permission denied") = (false, "Permission denied") ∧
      "Permission denied" ≠ device_access_hint "/dev/sdb" := by
  constructor
  · rfl
  · intro h
    have hh := congrArg (fun s => s.data.head?) h
    simp only [device_access_hint] at hh
    exact absurd hh (by decide)

/-- C8 (amended): every error caught by the direct-imaging handler yields
`success = false`; a `FileNotFoundError` outside the Windows-physical-drive
case is replaced by the friendly message naming the device path with the hint
that it may not exist, is in use, or requires administrator privileges; every
other filesystem error is returned as the raw `str(e)` text. -/
theorem direct_imaging_error_translation (is_windows is_physical : Bool)
    (device_path : String) (e : OsExc) :
    (create_disk_image_exc_result is_windows is_physical device_path e).1 = false ∧
      (OsExc.is_file_not_found e = true → (is_windows = false ∨ is_physical = false) →
        (create_disk_image_exc_result is_windows is_physical device_path e).2 =
          device_access_hint device_path) ∧
      (OsExc.is_file_not_found e = false →
        (create_disk_image_exc_result is_windows is_physical device_path e).2 =
          OsExc.str e) := by
  refine ⟨?_, ?_, ?_⟩
  · unfold create_disk_image_exc_result
    split
    · rfl
    · rfl
  · intro h1 h2
    unfold create_disk_image_exc_result
    have hc : (OsExc.is_file_not_found e && (!is_windows || !is_physical)) = true := by
      rcases h2 with h2 | h2 <;> subst h2 <;> simp [h1]
    rw [if_pos hc]
  · intro h1
    unfold create_disk_image_exc_result
    rw [if_neg (by simp [h1])]

/-- C8 witness: the translation theorem applied to a `FileNotFoundError` on a
non-Windows direct-imaging run. -/
theorem direct_imaging_error_translation_witness :
    (create_disk_image_exc_result false false "/dev/sdb" (OsExc.file_not_found "gone")).1 =
        false ∧
      (OsExc.is_file_not_found (OsExc.file_not_found "gone") = true →
        (false = false ∨ false = false) →
        (create_disk_image_exc_result false false "/dev/sdb"
            (OsExc.file_not_found "gone")).2 = device_access_hint "/dev/sdb") ∧
      (OsExc.is_file_not_found (OsExc.file_not_found "gone") = false →
        (create_disk_image_exc_result false false "/dev/sdb"
            (OsExc.file_not_found "gone")).2 = OsExc.str (OsExc.file_not_found "gone")) :=
  direct_imaging_error_translation false false "/dev/sdb" (OsExc.file_not_found "gone")

/-- C9: evaluation at the failing input.  When `disk_ops.py::create_disk_image`
finishes the raw copy for a non-raw format it does pick the temporary path
`output_path + '.tmp.raw'`, but the conversion step it then invokes
(`create_disk_image_sparse`) takes `disk_info['device_id']` as its source: the
constructed qemu-img command names the device and never mentions the temporary
raw file, contradicting the claim that the tool converts the temporary file. -/
theorem conversion_reads_device_not_temp_file :
    raw_temp_path "out.qcow2" "qcow2" = "out.qcow2.tmp.raw" ∧
      "/dev/sda" ∈ create_disk_image_sparse_cmd "/dev/sda" "out.qcow2" "qcow2" false ∧
      "out.qcow2.tmp.raw" ∉ create_disk_image_sparse_cmd "/dev/sda" "out.qcow2" "qcow2" false := by
  refine ⟨rfl, ?_, ?_⟩
  · show "/dev/sda" ∈ ["qemu-img", "convert", "-O", "qcow2", "-S", "4096", "/dev/sda", "out.qcow2"]
    decide
  · show "out.qcow2.tmp.raw" ∉
      ["qemu-img", "convert", "-O", "qcow2", "-S", "4096", "/dev/sda", "out.qcow2"]
    decide
